import Mathlib

/-!
Shallow embedding of the Smart-Home-Security-System core
(src/SecuritySystem.cpp together with the class declaration in
src/unnamed/part_001).

Modelling conventions:
* The C `char inputCode[5]` buffer together with `int codeIndex` is modelled
  as a single `List Char` holding exactly the entered digits.  This is
  faithful because every mutation in the source keeps the array a
  null-terminated string of the first `codeIndex` entered digits: a digit is
  written at position `codeIndex` and the index incremented, backspace writes
  a 0 terminator at the decremented index, and every reset does
  `codeIndex = 0; memset(inputCode, 0, ...)`.  Hence `codeIndex` is the list
  length and `strcmp(inputCode, SECURITY_CODE) == 0` is list equality with
  the provisioned code.
* `uint32_t` arithmetic (timestamps, the entry-delay countdown) is modelled
  on `Nat` with explicit wrap-around: `u32sub` is subtraction modulo 2^32,
  which is exactly what `a - b` computes on `uint32_t` operands.
* Hardware side effects (LCD, LED, buzzer) are dropped; `logEvent` calls are
  recorded in an explicit `log : List String` field, in source order.
* The function-static locals of the source (`lastUpdate` in
  `processEntryDelay`, `inAlertZone` in `checkSensors`) are promoted to an
  explicit field / explicitly threaded parameter.
* The blocking alarm sub-loop `handleAlarm` is modelled as a fold over the
  list of keys scanned by the loop; an iteration that scans no key does not
  change any modelled state, so it is omitted from the list.
-/

namespace SecuritySystem

/-- The four system states, from `enum SystemState` in the header. -/
inductive SystemState
  | DISARMED
  | ARMED_HOME
  | ARMED_AWAY
  | ALARM
deriving DecidableEq, Repr

open SystemState

/-- The mutable state of the `SecuritySystem` class that the core logic
reads and writes (hardware handles dropped).  `inputCode` models the digit
buffer as described in the file header; `edLastUpdate` is the promoted
function-static `lastUpdate` of `processEntryDelay`; `log` records
`logEvent` calls. -/
structure SecState where
  currentState : SystemState
  inputCode : List Char
  lastCommand : Char
  entryDelayActive : Bool
  entryDelayStart : Nat
  edLastUpdate : Nat
  lastDoorState : Bool
  lastUltrasonicAlert : Nat
  log : List String
deriving DecidableEq, Repr

/-- 2^32, the modulus of `uint32_t` arithmetic. -/
def U32 : Nat := 4294967296

/-- `uint32_t` subtraction `a - b` (wrap-around modulo 2^32). -/
def u32sub (a b : Nat) : Nat := (a % U32 + U32 - b % U32) % U32

/-- The provisioned access code, `SECURITY_CODE[] = "2580"`. -/
def SECURITY_CODE : List Char := ['2', '5', '8', '0']

/-- `validateCode`: `strcmp(inputCode, SECURITY_CODE) == 0`, i.e. the entered
digits equal the provisioned code. -/
def validateCode (buf : List Char) : Bool := buf == SECURITY_CODE

/-- The state constructed by the `SecuritySystem()` constructor:
DISARMED, empty buffer, `lastCommand = 0`, no entry delay, timers zero. -/
def secInit : SecState :=
  { currentState := DISARMED
    inputCode := []
    lastCommand := Char.ofNat 0
    entryDelayActive := false
    entryDelayStart := 0
    edLastUpdate := 0
    lastDoorState := false
    lastUltrasonicAlert := 0
    log := [] }

/-- `SecuritySystem::handleKeypress`, translated branch by branch.  The
special entry-delay block at the top (active entry delay under ARMED_AWAY)
comes first and ends in `return`; otherwise the `switch` runs.  A key press
whose `case 'D'` sets `currentState = ALARM` then enters the blocking alarm
sub-loop, which is modelled separately by `handleAlarm`. -/
def handleKeypress (s : SecState) (key : Char) : SecState :=
  if s.currentState = ARMED_AWAY ∧ s.entryDelayActive = true then
    -- entry-delay digit path
    if ('0' ≤ key ∧ key ≤ '9') ∧ s.inputCode.length < 4 then
      { s with inputCode := s.inputCode ++ [key] }
    else if key = '#' ∧ s.inputCode.length = 4 then
      if validateCode s.inputCode then
        -- valid code: cancel delay and disarm (buffer is NOT cleared here)
        { s with entryDelayActive := false, currentState := DISARMED }
      else
        -- invalid code: clear the buffer only
        { s with inputCode := [] }
    else if key = '*' ∧ 0 < s.inputCode.length then
      { s with inputCode := s.inputCode.dropLast }
    else
      s
  else if key = 'A' then
    if s.currentState ≠ ALARM then
      { s with inputCode := [], lastCommand := 'A' }
    else s
  else if key = 'B' then
    if s.currentState ≠ ALARM then
      { s with inputCode := [], lastCommand := 'B' }
    else s
  else if key = 'C' then
    -- note the guard in the source is `currentState != DISARMED`
    if s.currentState ≠ DISARMED then
      { s with inputCode := [], lastCommand := 'C' }
    else s
  else if key = 'D' then
    -- panic: unconditional ALARM, log, then the alarm sub-loop runs;
    -- the code buffer is not touched here
    { s with currentState := ALARM, log := s.log ++ ["Panic Button Pressed"] }
  else if key = '*' then
    if 0 < s.inputCode.length then
      { s with inputCode := s.inputCode.dropLast }
    else s
  else if key = '#' then
    if s.inputCode.length = 4 then
      if validateCode s.inputCode then
        if s.lastCommand = 'A' then
          { s with entryDelayActive := false, entryDelayStart := 0,
                   currentState := ARMED_HOME,
                   log := s.log ++ ["System Armed - Home Mode"],
                   inputCode := [] }
        else if s.lastCommand = 'B' then
          { s with entryDelayActive := false, entryDelayStart := 0,
                   currentState := ARMED_AWAY,
                   log := s.log ++ ["System Armed - Away Mode"],
                   inputCode := [] }
        else if s.lastCommand = 'C' then
          { s with entryDelayActive := false, entryDelayStart := 0,
                   currentState := DISARMED,
                   log := s.log ++ ["System Disarmed"],
                   inputCode := [] }
        else
          { s with inputCode := [] }
      else
        { s with inputCode := [] }
    else s
  else if ('0' ≤ key ∧ key ≤ '9') ∧ s.inputCode.length < 4 then
    { s with inputCode := s.inputCode ++ [key] }
  else s

/-- A sequence of key presses fed to `handleKeypress`. -/
def runKeys (s : SecState) (keys : List Char) : SecState :=
  keys.foldl handleKeypress s

example : (runKeys secInit ['A', '2', '5', '8', '0', '#']).currentState
    = ARMED_HOME := by decide

example : (runKeys secInit ['A', '2', '5', '8', '1', '#']).currentState
    = DISARMED := by decide

/-- The state of one iteration of the `handleAlarm` while-loop: the shared
system state plus the loop-local `codeEntryMode` flag. -/
structure AlarmSt where
  sec : SecState
  codeEntryMode : Bool
deriving DecidableEq, Repr

/-- One iteration of the `while(currentState == ALARM)` loop in
`SecuritySystem::handleAlarm`, given the key scanned in that iteration.
If the loop has already exited (state no longer ALARM, i.e. the `break`
after a successful disarm was taken) the remaining keys are not consumed
and the state is unchanged. -/
def alarmStep (a : AlarmSt) (key : Char) : AlarmSt :=
  if a.sec.currentState ≠ ALARM then a
  else if a.codeEntryMode = false then
    -- phase 1: alarm pattern, waiting for 'C'
    if key = 'C' then
      { a with
        codeEntryMode := true
        sec := { a.sec with inputCode := [], lastCommand := 'C' } }
    else a
  else
    -- phase 2: code entry while the alarm is active
    if ('0' ≤ key ∧ key ≤ '9') ∧ a.sec.inputCode.length < 4 then
      { a with sec := { a.sec with inputCode := a.sec.inputCode ++ [key] } }
    else if key = '#' ∧ a.sec.inputCode.length = 4 then
      if validateCode a.sec.inputCode then
        -- resetEntryDelay(); disarm; log; break  (buffer NOT cleared)
        { a with
          sec := { a.sec with
                   entryDelayActive := false
                   entryDelayStart := 0
                   currentState := DISARMED
                   log := a.sec.log ++ ["Alarm Disarmed"] } }
      else
        -- wrong code: log, back to phase 1, clear the buffer
        { a with
          codeEntryMode := false
          sec := { a.sec with
                   inputCode := []
                   log := a.sec.log ++ ["Wrong Code Entry During Alarm"] } }
    else if key = '*' ∧ 0 < a.sec.inputCode.length then
      { a with sec := { a.sec with inputCode := a.sec.inputCode.dropLast } }
    else a

/-- `SecuritySystem::handleAlarm`: logs "ALARM TRIGGERED" on entry, then
runs the alarm loop over the scanned keys starting in phase 1. -/
def handleAlarm (s : SecState) (keys : List Char) : SecState :=
  (keys.foldl alarmStep
    { sec := { s with log := s.log ++ ["ALARM TRIGGERED"] }
      codeEntryMode := false }).sec

/-- `SecuritySystem::processEntryDelay` at a given `Kernel::get_ms_count()`
value.  All timestamp arithmetic is `uint32_t`: in particular
`remaining = 30 - elapsed` wraps around modulo 2^32 when `elapsed > 30`. -/
def processEntryDelay (currentTime : Nat) (s : SecState) : SecState :=
  if s.entryDelayActive = false then s
  else
    let elapsed := u32sub currentTime s.entryDelayStart / 1000
    let remaining := u32sub 30 elapsed
    if 1000 ≤ u32sub currentTime s.edLastUpdate ∨ s.edLastUpdate = 0 then
      if 0 < remaining then
        -- countdown display only
        { s with edLastUpdate := currentTime }
      else
        -- time expired: trigger alarm (then the alarm sub-loop runs)
        { s with edLastUpdate := currentTime,
                 entryDelayActive := false,
                 currentState := ALARM }
    else s

/-- `SecuritySystem::handleMotionDetected` (message variant). -/
def handleMotionDetected (s : SecState) (motionMsg : String) : SecState :=
  if s.currentState ≠ ALARM then
    { s with
      entryDelayActive := false
      entryDelayStart := 0
      currentState := ALARM
      log := s.log ++ [motionMsg] }
  else s

/-- The PIR-motion part of `SecuritySystem::checkSensors`, on a snapshot of
the two motion sensors (`pir1` = external PIR, `pir2` = internal PIR). -/
def checkMotion (pir1 pir2 : Bool) (s : SecState) : SecState :=
  if pir1 = true ∨ pir2 = true then
    if s.currentState = ARMED_AWAY then
      handleMotionDetected s "Motion Detected!"
    else if s.currentState = ARMED_HOME ∧ pir1 = true then
      handleMotionDetected s "Outside Motion!"
    else s
  else s

/-- `SecuritySystem::handleUltrasonicAlert` at a given millisecond
timestamp: rate-limited to one alert per 1000 ms; warns (log only here)
under ARMED_HOME, escalates to ALARM under ARMED_AWAY. -/
def handleUltrasonicAlert (alertMsg : String) (currentTime : Nat)
    (s : SecState) : SecState :=
  if u32sub currentTime s.lastUltrasonicAlert < 1000 then s
  else
    let s1 := { s with lastUltrasonicAlert := currentTime }
    if s1.currentState = ARMED_HOME then
      { s1 with log := s1.log ++ [alertMsg] }
    else if s1.currentState = ARMED_AWAY then
      { s1 with log := s1.log ++ [alertMsg], currentState := ALARM }
    else s1

/-- The ultrasonic part of `SecuritySystem::checkSensors` on one distance
reading, threading the function-static `inAlertZone` latch explicitly.
Distances are modelled as rationals, exact for the integral readings used
in the claims.  The third component records whether this reading entered
the alert zone (the `inAlertZone = true` branch that invokes
`handleUltrasonicAlert`). -/
def checkUltrasonic (currentTime : Nat) (distance : ℚ) (inAlertZone : Bool)
    (s : SecState) : Bool × SecState × Bool :=
  if s.currentState ≠ DISARMED ∧ s.entryDelayActive = false then
    if distance < 10 ∧ inAlertZone = false then
      let s1 :=
        if s.currentState = ARMED_HOME then
          handleUltrasonicAlert "Proximity Alert" currentTime s
        else if s.currentState = ARMED_AWAY then
          handleUltrasonicAlert "Window Breach!" currentTime s
        else s
      (true, s1, true)
    else if 12 < distance then
      (false, s, false)
    else
      (inAlertZone, s, false)
  else (inAlertZone, s, false)

/-- Runs the ultrasonic check over a list of (timestamp, distance) readings,
counting the alert-entry events (third components of `checkUltrasonic`). -/
def runUltrasonic (events : List (Nat × ℚ)) (inAlertZone : Bool)
    (s : SecState) : Bool × SecState × Nat :=
  match events with
  | [] => (inAlertZone, s, 0)
  | (t, d) :: rest =>
    let r := checkUltrasonic t d inAlertZone s
    let r2 := runUltrasonic rest r.1 r.2.1
    (r2.1, r2.2.1, (if r.2.2 = true then 1 else 0) + r2.2.2)

/-- `SecuritySystem::handleDoorOpen` at a given millisecond timestamp. -/
def handleDoorOpen (msg : String) (currentTime : Nat) (s : SecState) :
    SecState :=
  let s1 := { s with log := s.log ++ [msg] }
  if s1.currentState = ARMED_AWAY then
    { s1 with
      entryDelayActive := true
      entryDelayStart := currentTime
      inputCode := [] }
  else s1

/-- The door-edge part of `SecuritySystem::checkSensors`: rising edge only,
with `lastDoorState` updated every poll. -/
def checkDoor (door : Bool) (currentTime : Nat) (s : SecState) : SecState :=
  let s1 :=
    if door = true ∧ s.lastDoorState = false then
      if s.currentState = ARMED_HOME then
        handleDoorOpen "Door Opened" currentTime s
      else if s.currentState = ARMED_AWAY then
        handleDoorOpen "Entry Started" currentTime s
      else s
    else s
  { s1 with lastDoorState := door }

/-- The system state on entering the alarm sub-loop after a panic press
from the freshly initialized system. -/
def alarmEntry : SecState := { secInit with currentState := ALARM }

/-- A state in the middle of an entry-delay episode: ARMED_AWAY, door
tripped at t = 0 ms, countdown display never yet updated. -/
def entryDelayEpisode : SecState :=
  { secInit with
    currentState := ARMED_AWAY
    entryDelayActive := true
    entryDelayStart := 0
    edLastUpdate := 0
    lastDoorState := true }

/-- C1: the claim states that every exit path of the alarm sub-loop leaves
the code-entry buffer empty.  The sub-loop's only exit is the successful
disarm `break`, and that path does NOT clear the buffer: after the disarm
sequence C-2-5-8-0-# the loop exits in DISARMED with the buffer still
holding the four digits of the accepted code (`codeIndex == 4`,
`inputCode == "2580"`), contradicting the claim (and the spec's
clear-on-every-exit requirement, which the normal '#' path does follow). -/
theorem C1_alarm_exit_buffer_not_cleared :
    (handleAlarm alarmEntry ['C', '2', '5', '8', '0', '#']).currentState
        = DISARMED
  ∧ (handleAlarm alarmEntry ['C', '2', '5', '8', '0', '#']).inputCode
        = ['2', '5', '8', '0'] := by decide

/-- C3: the claim states that once 30 seconds have elapsed since door-open,
any processing of the countdown forces ALARM.  In the code
`remaining = 30 - elapsed` is computed on `uint32_t`, so when the countdown
is first processed at elapsed = 31 s the subtraction wraps to 2^32 - 1 > 0
and the display branch is taken instead of the alarm branch: the state
stays ARMED_AWAY with the delay still active.  Only processing at exactly
elapsed = 30 s (third conjunct) forces ALARM. -/
theorem C3_entry_delay_overflow_misses_alarm :
    (processEntryDelay 31000 entryDelayEpisode).currentState = ARMED_AWAY
  ∧ (processEntryDelay 31000 entryDelayEpisode).entryDelayActive = true
  ∧ (processEntryDelay 30000 entryDelayEpisode).currentState = ALARM := by
  decide

/-- C2 counterexample: after arming with 'A' 2-5-8-0 '#', the handler has
returned but `lastCommand` still holds 'A' (the claim says the pending
command is cleared when the episode ends); entering 2-5-8-0 '#' again with
no new command key re-executes the arm command, logging the arm transition
a second time (the claim says it is not re-executed). -/
theorem C2_pending_command_not_cleared_cx :
    (runKeys secInit ['A', '2', '5', '8', '0', '#']).lastCommand = 'A'
  ∧ (runKeys secInit
        ['A', '2', '5', '8', '0', '#', '2', '5', '8', '0', '#']).log
      = ["System Armed - Home Mode", "System Armed - Home Mode"] := by decide

/-- A state during an active entry delay with one digit already entered. -/
def c4DelayState : SecState :=
  { entryDelayEpisode with inputCode := ['1'] }

/-- An ARMED_HOME state with a two-digit code entry in progress. -/
def c4HomeState : SecState :=
  { secInit with currentState := ARMED_HOME, inputCode := ['1', '2'] }

/-- C4 counterexample: during an active entry delay under ARMED_AWAY a 'D'
press is swallowed by the entry-delay block and the state stays ARMED_AWAY
(the claim says 'D' forces ALARM regardless of an active entry delay); and
outside the entry delay, 'D' from ARMED_HOME does force ALARM but leaves
the in-progress code-entry buffer untouched (the claim says the buffer is
cleared). -/
theorem C4_panic_cx :
    handleKeypress c4DelayState 'D' = c4DelayState
  ∧ (handleKeypress c4HomeState 'D').currentState = ALARM
  ∧ (handleKeypress c4HomeState 'D').inputCode = ['1', '2'] := by decide

/-- C5 counterexample: from the freshly initialized DISARMED system,
pressing 'C' then 2-5-8-0 '#' leaves the state DISARMED but logs nothing
(the claim says the disarm transition is still logged), because the 'C'
case is guarded by `currentState != DISARMED`, so no code-entry episode
with pending command 'C' is ever opened (`lastCommand` stays 0). -/
theorem C5_disarm_while_disarmed_cx :
    (runKeys secInit ['C', '2', '5', '8', '0', '#']).currentState = DISARMED
  ∧ (runKeys secInit ['C', '2', '5', '8', '0', '#']).log = []
  ∧ (runKeys secInit ['C', '2', '5', '8', '0', '#']).lastCommand
      = Char.ofNat 0 := by decide

/-- C10: submitting an invalid 4-digit code with '#' during an active entry
delay under ARMED_AWAY only clears the code-entry buffer: the state stays
ARMED_AWAY, `entryDelayActive` stays true and `entryDelayStart` is
unchanged (the record-update equality fixes every other field), so failed
attempts neither extend nor reset the 30-second deadline. -/
theorem C10_wrong_code_entry_delay_atomic (s : SecState)
    (h1 : s.currentState = ARMED_AWAY) (h2 : s.entryDelayActive = true)
    (h3 : s.inputCode.length = 4) (h4 : validateCode s.inputCode = false) :
    handleKeypress s '#' = { s with inputCode := [] } := by
  simp [handleKeypress, h1, h2, h3, h4]

/-- An entry-delay state holding the wrong 4-digit code 1-1-1-1. -/
def c10State : SecState :=
  { entryDelayEpisode with inputCode := ['1', '1', '1', '1'] }

/-- C10 witness: the theorem instantiated at a concrete entry-delay state
holding the wrong code 1-1-1-1. -/
theorem C10_witness :
    validateCode c10State.inputCode = false
  ∧ handleKeypress c10State '#' = { c10State with inputCode := [] } :=
  ⟨by decide,
   C10_wrong_code_entry_delay_atomic c10State (by decide) (by decide)
     (by decide) (by decide)⟩

/-- C6: entering the valid 4-digit code and '#' during an active entry
delay under ARMED_AWAY disarms the system and cancels the entry-delay
window, and afterwards no processing of the countdown at any time (in
particular at or after the 30-second deadline) can ever transition the
state to ALARM: `processEntryDelay` is the identity once the window is
inactive.  No hypothesis restricts the current time, so this covers a code
completed at remaining = 1 s. -/
theorem C6_entry_delay_disarm_cancels (s : SecState)
    (h1 : s.currentState = ARMED_AWAY) (h2 : s.entryDelayActive = true)
    (h3 : s.inputCode = SECURITY_CODE) :
    (handleKeypress s '#').currentState = DISARMED
  ∧ (handleKeypress s '#').entryDelayActive = false
  ∧ ∀ t : Nat, processEntryDelay t (handleKeypress s '#')
      = handleKeypress s '#' := by
  have hstep : handleKeypress s '#'
      = { s with entryDelayActive := false, currentState := DISARMED } := by
    simp [handleKeypress, h1, h2, h3, validateCode, SECURITY_CODE]
  rw [hstep]
  refine ⟨rfl, rfl, fun t => ?_⟩
  simp [processEntryDelay]

/-- An entry-delay state whose buffer holds the valid code, 29 seconds
into the 30-second window (remaining = 1 s). -/
def c6State : SecState :=
  { entryDelayEpisode with inputCode := SECURITY_CODE, edLastUpdate := 29000 }

/-- C6 witness: the theorem instantiated at a concrete entry-delay state
with the valid code completed at remaining = 1 s, checking the countdown
at the old 30-second deadline and beyond. -/
theorem C6_witness :
    (handleKeypress c6State '#').currentState = DISARMED
  ∧ (handleKeypress c6State '#').entryDelayActive = false
  ∧ processEntryDelay 30000 (handleKeypress c6State '#')
      = handleKeypress c6State '#'
  ∧ processEntryDelay 31000 (handleKeypress c6State '#')
      = handleKeypress c6State '#' :=
  ⟨(C6_entry_delay_disarm_cancels c6State rfl rfl rfl).1,
   (C6_entry_delay_disarm_cancels c6State rfl rfl rfl).2.1,
   (C6_entry_delay_disarm_cancels c6State rfl rfl rfl).2.2 30000,
   (C6_entry_delay_disarm_cancels c6State rfl rfl rfl).2.2 31000⟩

set_option maxHeartbeats 1000000 in
/-- C2 (amended): the pending command is never cleared — `lastCommand` is
preserved by every key press other than 'A'/'B'/'C' (which overwrite it),
so its lifetime extends past the code-entry episode; consequently a later
4-digit-plus-'#' entry with no intervening command key re-executes the
retained command (second conjunct: from ARMED_HOME with retained command
'A', a bare valid-code confirmation re-runs the arm-home transition and
logs it again). -/
theorem C2_pending_command_persists :
    (∀ (s : SecState) (key : Char), key ≠ 'A' → key ≠ 'B' → key ≠ 'C' →
        (handleKeypress s key).lastCommand = s.lastCommand)
  ∧ (∀ s : SecState, s.currentState = ARMED_HOME →
        s.inputCode = SECURITY_CODE → s.lastCommand = 'A' →
        handleKeypress s '#'
          = { s with entryDelayActive := false, entryDelayStart := 0,
                     currentState := ARMED_HOME,
                     log := s.log ++ ["System Armed - Home Mode"],
                     inputCode := [] }) := by
  constructor
  · intro s key hA hB hC
    unfold handleKeypress
    split_ifs <;> simp_all
  · intro s h1 h2 h3
    simp [handleKeypress, h1, h2, h3, validateCode, SECURITY_CODE]

/-- The state left behind by arming the fresh system with 'A' 2-5-8-0 '#'. -/
def c2Armed : SecState := runKeys secInit ['A', '2', '5', '8', '0', '#']

/-- C2 witness: the amended theorem instantiated at a digit key (which
preserves `lastCommand`) and at the concrete post-arming state, where a
bare 2-5-8-0 '#' re-executes the retained 'A' command. -/
theorem C2_witness :
    (handleKeypress c2Armed '5').lastCommand = c2Armed.lastCommand
  ∧ handleKeypress { c2Armed with inputCode := SECURITY_CODE } '#'
      = { c2Armed with inputCode := [],
                       log := c2Armed.log
                         ++ ["System Armed - Home Mode"] } := by
  refine ⟨C2_pending_command_persists.1 c2Armed '5' (by decide) (by decide)
    (by decide), ?_⟩
  have h := C2_pending_command_persists.2
    { c2Armed with inputCode := SECURITY_CODE } (by decide) (by decide)
    (by decide)
  rw [h]
  decide

/-- C4 (amended): a 'D' press outside an active entry delay unconditionally
forces ALARM and logs the panic event — the record-update equality shows
every other field, in particular the in-progress code-entry buffer, is left
untouched (not cleared as the original claim states); and during an active
entry delay under ARMED_AWAY a 'D' press is ignored entirely by the
entry-delay block. -/
theorem C4_panic_amended :
    (∀ s : SecState, s.currentState = ARMED_AWAY →
        s.entryDelayActive = true → handleKeypress s 'D' = s)
  ∧ (∀ s : SecState,
        ¬(s.currentState = ARMED_AWAY ∧ s.entryDelayActive = true) →
        handleKeypress s 'D'
          = { s with currentState := ALARM,
                     log := s.log ++ ["Panic Button Pressed"] }) := by
  constructor
  · intro s h1 h2
    simp [handleKeypress, h1, h2]
  · intro s h
    simp [handleKeypress, h]

/-- C4 witness: the amended theorem instantiated at the concrete
entry-delay state (panic ignored) and at the concrete ARMED_HOME state
with a two-digit entry in progress (panic fires, buffer untouched). -/
theorem C4_witness :
    handleKeypress c4DelayState 'D' = c4DelayState
  ∧ handleKeypress c4HomeState 'D'
      = { c4HomeState with currentState := ALARM,
                           log := c4HomeState.log
                             ++ ["Panic Button Pressed"] } :=
  ⟨C4_panic_amended.1 c4DelayState (by decide) (by decide),
   C4_panic_amended.2 c4HomeState (by decide)⟩

set_option maxHeartbeats 1000000 in
/-- C5 (amended): pressing 'C' while already DISARMED is a complete no-op
(the source guards the 'C' case by `currentState != DISARMED`), so no
code-entry episode is opened and no pending command is stored; a
subsequent valid 4-digit '#' leaves the state DISARMED and, because
`lastCommand` holds no command, performs no transition and logs nothing —
only the buffer is cleared. -/
theorem C5_disarm_amended :
    (∀ s : SecState, s.currentState = DISARMED → handleKeypress s 'C' = s)
  ∧ (∀ s : SecState, s.currentState = DISARMED →
        s.inputCode = SECURITY_CODE →
        s.lastCommand ≠ 'A' → s.lastCommand ≠ 'B' → s.lastCommand ≠ 'C' →
        handleKeypress s '#' = { s with inputCode := [] }) := by
  constructor
  · intro s h1
    simp [handleKeypress, h1]
  · intro s h1 h2 hA hB hC
    simp [handleKeypress, h1, h2, hA, hB, hC, validateCode, SECURITY_CODE]

/-- C5 witness: the amended theorem instantiated at the fresh DISARMED
system ('C' is a no-op) and at that system with the valid code typed in
(confirmation clears the buffer and nothing else). -/
theorem C5_witness :
    handleKeypress secInit 'C' = secInit
  ∧ handleKeypress { secInit with inputCode := SECURITY_CODE } '#'
      = { secInit with inputCode := [] } :=
  ⟨C5_disarm_amended.1 secInit (by decide),
   C5_disarm_amended.2 { secInit with inputCode := SECURITY_CODE }
     (by decide) (by decide) (by decide) (by decide) (by decide)⟩

/-- C7: the PIR check's mode asymmetry — while ARMED_HOME, a snapshot with
only the interior sensor (PIR2) active leaves the whole state unchanged
(so the state never becomes ALARM), while any snapshot with the exterior
sensor (PIR1) active forces ALARM; while ARMED_AWAY, any snapshot with
either sensor active forces ALARM. -/
theorem C7_motion_asymmetry (s : SecState) :
    (s.currentState = ARMED_HOME → checkMotion false true s = s)
  ∧ (∀ p2 : Bool, s.currentState = ARMED_HOME →
        (checkMotion true p2 s).currentState = ALARM)
  ∧ (∀ p1 p2 : Bool, s.currentState = ARMED_AWAY →
        (p1 = true ∨ p2 = true) →
        (checkMotion p1 p2 s).currentState = ALARM) := by
  refine ⟨fun h1 => ?_, fun p2 h1 => ?_, fun p1 p2 h1 h2 => ?_⟩
  · simp [checkMotion, h1]
  · simp [checkMotion, handleMotionDetected, h1]
  · rcases h2 with h2 | h2 <;> subst h2 <;>
      simp [checkMotion, handleMotionDetected, h1]

/-- An ARMED_AWAY state, for instantiating the away-mode motion rule. -/
def c7AwayState : SecState := { secInit with currentState := ARMED_AWAY }

/-- C7 witness: the theorem instantiated at concrete ARMED_HOME and
ARMED_AWAY states with concrete sensor snapshots. -/
theorem C7_witness :
    checkMotion false true c4HomeState = c4HomeState
  ∧ (checkMotion true false c4HomeState).currentState = ALARM
  ∧ (checkMotion false true c7AwayState).currentState = ALARM :=
  ⟨(C7_motion_asymmetry c4HomeState).1 (by decide),
   (C7_motion_asymmetry c4HomeState).2.1 false (by decide),
   (C7_motion_asymmetry c7AwayState).2.2 false true (by decide)
     (Or.inr (by decide))⟩

/-- The pure hysteresis-latch update performed by the ultrasonic branch of
`checkSensors`: enter below 10 cm (when not already in the zone), clear
above 12 cm, otherwise keep the latch. -/
def latchStep (z : Bool) (d : ℚ) : Bool :=
  if d < 10 ∧ z = false then true else if 12 < d then false else z

/-- Number of alert-entry events the hysteresis filter produces over a list
of distance readings, starting from latch value `z`. -/
def latchCount (z : Bool) : List ℚ → Nat
  | [] => 0
  | d :: rest =>
    (if d < 10 ∧ z = false then 1 else 0) + latchCount (latchStep z d) rest

lemma handleUltrasonicAlert_home (msg : String) (t : Nat) (s : SecState)
    (h1 : s.currentState = ARMED_HOME) :
    (handleUltrasonicAlert msg t s).currentState = ARMED_HOME
  ∧ (handleUltrasonicAlert msg t s).entryDelayActive = s.entryDelayActive := by
  unfold handleUltrasonicAlert
  split_ifs <;> simp_all

lemma checkUltrasonic_home (t : Nat) (d : ℚ) (z : Bool) (s : SecState)
    (h1 : s.currentState = ARMED_HOME) (h2 : s.entryDelayActive = false) :
    (checkUltrasonic t d z s).1 = latchStep z d
  ∧ (checkUltrasonic t d z s).2.1.currentState = ARMED_HOME
  ∧ (checkUltrasonic t d z s).2.1.entryDelayActive = false
  ∧ (checkUltrasonic t d z s).2.2
      = (if d < 10 ∧ z = false then true else false) := by
  have hua := handleUltrasonicAlert_home "Proximity Alert" t s h1
  unfold checkUltrasonic latchStep
  split_ifs <;> simp_all

lemma runUltrasonic_home (events : List (Nat × ℚ)) (z : Bool) (s : SecState)
    (h1 : s.currentState = ARMED_HOME) (h2 : s.entryDelayActive = false) :
    (runUltrasonic events z s).2.1.currentState = ARMED_HOME
  ∧ (runUltrasonic events z s).2.2 = latchCount z (events.map Prod.snd) := by
  induction events generalizing z s with
  | nil => simp [runUltrasonic, latchCount, h1]
  | cons e rest ih =>
    obtain ⟨t, d⟩ := e
    have hc := checkUltrasonic_home t d z s h1 h2
    have ihr := ih (latchStep z d) (checkUltrasonic t d z s).2.1
      hc.2.1 hc.2.2.1
    simp only [runUltrasonic, List.map, latchCount]
    rw [hc.1]
    refine ⟨ihr.1, ?_⟩
    rw [ihr.2, hc.2.2.2]
    by_cases hd : d < 10 ∧ z = false <;> simp [hd]

/-- C8: while the state is ARMED_HOME with no entry delay active, the
distance sequence 15, 9, 11, 13, 8 cm on five successive ticks (any
timestamps) produces exactly two alert-entry events — at the two sub-10
readings, separated by the above-12 clearing reading — and the state is
still ARMED_HOME afterwards (the home-mode proximity handler never
escalates to ALARM). -/
theorem C8_hysteresis_two_alerts (s : SecState) (t1 t2 t3 t4 t5 : Nat)
    (h1 : s.currentState = ARMED_HOME) (h2 : s.entryDelayActive = false) :
    (runUltrasonic [(t1, 15), (t2, 9), (t3, 11), (t4, 13), (t5, 8)]
        false s).2.2 = 2
  ∧ (runUltrasonic [(t1, 15), (t2, 9), (t3, 11), (t4, 13), (t5, 8)]
        false s).2.1.currentState = ARMED_HOME := by
  have h := runUltrasonic_home
    [(t1, 15), (t2, 9), (t3, 11), (t4, 13), (t5, 8)] false s h1 h2
  refine ⟨?_, h.1⟩
  rw [h.2]
  simp only [List.map_cons, List.map_nil]
  decide

/-- An ARMED_HOME state for the hysteresis witness. -/
def c8State : SecState := { secInit with currentState := ARMED_HOME }

/-- C8 witness: the theorem instantiated at a concrete ARMED_HOME state
with the five readings observed on successive 50 ms poll ticks. -/
theorem C8_witness :
    (runUltrasonic [(0, 15), (50, 9), (100, 11), (150, 13), (200, 8)]
        false c8State).2.2 = 2
  ∧ (runUltrasonic [(0, 15), (50, 9), (100, 11), (150, 13), (200, 8)]
        false c8State).2.1.currentState = ARMED_HOME :=
  C8_hysteresis_two_alerts c8State 0 50 100 150 200 (by decide) (by decide)

set_option maxHeartbeats 1000000 in
lemma handleKeypress_len (s : SecState) (key : Char)
    (h : s.inputCode.length ≤ 4) :
    (handleKeypress s key).inputCode.length ≤ 4 := by
  unfold handleKeypress
  simp only [apply_ite SecState.inputCode, apply_ite List.length,
    List.length_append, List.length_dropLast, List.length_nil,
    List.length_cons, List.length_singleton]
  split_ifs <;> omega

lemma runKeys_len (s : SecState) (keys : List Char)
    (h : s.inputCode.length ≤ 4) :
    (runKeys s keys).inputCode.length ≤ 4 := by
  induction keys generalizing s with
  | nil => simpa [runKeys] using h
  | cons k rest ih =>
    simpa [runKeys, List.foldl] using ih (handleKeypress s k)
      (handleKeypress_len s k h)

set_option maxHeartbeats 1000000 in
lemma alarmStep_len (a : AlarmSt) (key : Char)
    (h : a.sec.inputCode.length ≤ 4) :
    (alarmStep a key).sec.inputCode.length ≤ 4 := by
  unfold alarmStep
  split_ifs <;> simp_all [List.length_dropLast] <;> omega

lemma alarmFold_len (a : AlarmSt) (keys : List Char)
    (h : a.sec.inputCode.length ≤ 4) :
    (keys.foldl alarmStep a).sec.inputCode.length ≤ 4 := by
  induction keys generalizing a with
  | nil => simpa [List.foldl] using h
  | cons k rest ih =>
    simpa [List.foldl] using ih (alarmStep a k) (alarmStep_len a k h)

set_option maxHeartbeats 1000000 in
lemma handleKeypress_star_empty (s : SecState) (h : s.inputCode = []) :
    handleKeypress s '*' = s := by
  by_cases hED : s.currentState = ARMED_AWAY ∧ s.entryDelayActive = true
  · simp [handleKeypress, hED, h]
  · simp [handleKeypress, hED, h]

set_option maxHeartbeats 1000000 in
lemma alarmStep_star_empty (a : AlarmSt) (h : a.sec.inputCode = []) :
    alarmStep a '*' = a := by
  unfold alarmStep
  split_ifs <;> simp_all

set_option maxHeartbeats 1000000 in
lemma handleKeypress_digit_full (s : SecState) (d : Char)
    (hd0 : '0' ≤ d) (hd9 : d ≤ '9') (h : s.inputCode.length = 4) :
    handleKeypress s d = s := by
  have hA : d ≠ 'A' := fun he => absurd (he ▸ hd9) (by decide)
  have hB : d ≠ 'B' := fun he => absurd (he ▸ hd9) (by decide)
  have hC : d ≠ 'C' := fun he => absurd (he ▸ hd9) (by decide)
  have hD : d ≠ 'D' := fun he => absurd (he ▸ hd9) (by decide)
  have hSt : d ≠ '*' := fun he => absurd (he ▸ hd0) (by decide)
  have hHa : d ≠ '#' := fun he => absurd (he ▸ hd0) (by decide)
  by_cases hED : s.currentState = ARMED_AWAY ∧ s.entryDelayActive = true
  · simp [handleKeypress, hED, h, hSt, hHa]
  · simp [handleKeypress, hED, h, hA, hB, hC, hD, hSt, hHa]

set_option maxHeartbeats 1000000 in
lemma alarmStep_digit_full (a : AlarmSt) (d : Char)
    (hd0 : '0' ≤ d) (hd9 : d ≤ '9') (h : a.sec.inputCode.length = 4) :
    alarmStep a d = a := by
  have hC : d ≠ 'C' := fun he => absurd (he ▸ hd9) (by decide)
  have hSt : d ≠ '*' := fun he => absurd (he ▸ hd0) (by decide)
  have hHa : d ≠ '#' := fun he => absurd (he ▸ hd0) (by decide)
  unfold alarmStep
  split_ifs <;> simp_all

/-- C9: the code-entry buffer discipline across all three input paths (the
normal keypress handler, the entry-delay digit path — both inside
`handleKeypress` — and the alarm sub-loop): the buffer length never leaves
[0, 4] over any key sequence (the lower bound is inherent, the length
being a natural number); a '*' press on an empty buffer changes nothing;
and a digit pressed with the buffer already holding 4 characters is
dropped (the whole state is unchanged). -/
theorem C9_buffer_invariant :
    (∀ (s : SecState) (keys : List Char), s.inputCode.length ≤ 4 →
        (runKeys s keys).inputCode.length ≤ 4)
  ∧ (∀ (a : AlarmSt) (keys : List Char), a.sec.inputCode.length ≤ 4 →
        (keys.foldl alarmStep a).sec.inputCode.length ≤ 4)
  ∧ (∀ s : SecState, s.inputCode = [] → handleKeypress s '*' = s)
  ∧ (∀ a : AlarmSt, a.sec.inputCode = [] → alarmStep a '*' = a)
  ∧ (∀ (s : SecState) (d : Char), '0' ≤ d → d ≤ '9' →
        s.inputCode.length = 4 → handleKeypress s d = s)
  ∧ (∀ (a : AlarmSt) (d : Char), '0' ≤ d → d ≤ '9' →
        a.sec.inputCode.length = 4 → alarmStep a d = a) :=
  ⟨runKeys_len, alarmFold_len, handleKeypress_star_empty,
   alarmStep_star_empty, handleKeypress_digit_full, alarmStep_digit_full⟩

/-- A full code-entry buffer state for the C9 witness. -/
def c9Full : SecState :=
  { secInit with inputCode := ['1', '2', '3', '4'] }

/-- An alarm sub-loop state in code-entry mode with a full buffer. -/
def c9AlarmFull : AlarmSt :=
  { sec := { secInit with currentState := ALARM,
                          inputCode := ['1', '2', '3', '4'] }
    codeEntryMode := true }

/-- An alarm sub-loop state in code-entry mode with an empty buffer. -/
def c9AlarmEmpty : AlarmSt :=
  { sec := { secInit with currentState := ALARM }
    codeEntryMode := true }

/-- C9 witness: every conjunct of the buffer-invariant theorem
instantiated at concrete states and key sequences — seven keys (five
digits, '#', '*') from the fresh system, the full disarm dialog in the
alarm sub-loop, '*' on empty buffers, and a digit on full buffers. -/
theorem C9_witness :
    (runKeys secInit ['1', '2', '3', '4', '5', '#', '*']).inputCode.length
        ≤ 4
  ∧ (['C', '2', '5', '8', '0', '#'].foldl alarmStep
        { sec := alarmEntry
          codeEntryMode := false }).sec.inputCode.length ≤ 4
  ∧ handleKeypress secInit '*' = secInit
  ∧ alarmStep c9AlarmEmpty '*' = c9AlarmEmpty
  ∧ handleKeypress c9Full '7' = c9Full
  ∧ alarmStep c9AlarmFull '7' = c9AlarmFull :=
  ⟨C9_buffer_invariant.1 secInit ['1', '2', '3', '4', '5', '#', '*']
     (by decide),
   C9_buffer_invariant.2.1 { sec := alarmEntry, codeEntryMode := false }
     ['C', '2', '5', '8', '0', '#'] (by decide),
   C9_buffer_invariant.2.2.1 secInit (by decide),
   C9_buffer_invariant.2.2.2.1 c9AlarmEmpty (by decide),
   C9_buffer_invariant.2.2.2.2.1 c9Full '7' (by decide) (by decide)
     (by decide),
   C9_buffer_invariant.2.2.2.2.2 c9AlarmFull '7' (by decide) (by decide)
     (by decide)⟩

end SecuritySystem
